import Mathlib

/-!
# Verification of the research / book / audiobook generation pipeline

Shallow embedding of the core logic of the repository:

* `backend/lambda/research_handler.py` — research stage and research-variant
  confidence scorer;
* `backend/lambda/book_generator.py` — book stage, chapter generation and the
  chapter-variant confidence scorer;
* `backend/lambda/audiobook_generator.py` — text chunking and audio duration
  estimation;
* `backend/utils/orchestrator.py` — the quality gate
  (`_validate_research_quality`).

External effects (LLM backends, TTS, S3) are modelled as oracles
`String → Option String` (or similar): `some` is a successful call, `none` is
the raised-exception path.  Python `str` is modelled as Lean `String` where
only whole-string operations occur, and as `List Char` where the chunking code
manipulates character sequences.  Python `int` is `ℤ` (or `ℕ` where the source
value is manifestly a count), `float` arithmetic is modelled exactly over `ℚ`.
-/

set_option autoImplicit false
set_option maxRecDepth 4000

namespace Hackathon

/-! ## Text utilities

Python primitives used by the sources: `len(s.split())` (whitespace word
count), `re.findall(r'\d+', s)` (maximal digit runs), `s.replace(pat, rep)`
for two-character patterns, and `s.split(sep)` for a one-character separator.
-/

/-- Count of maximal runs of characters satisfying `p`; the `Bool` argument
records whether the previous character was inside a run. -/
def countRunsAux (p : Char → Bool) : List Char → Bool → ℕ
  | [], _ => 0
  | c :: rest, inRun =>
    if p c then (if inRun then 0 else 1) + countRunsAux p rest true
    else countRunsAux p rest false

/-- Python `len(s.split())`: number of maximal whitespace-free runs. -/
def pyWordCountL (s : List Char) : ℕ :=
  countRunsAux (fun c => !c.isWhitespace) s false

/-- Python `len(s.split())` on a `String`. -/
def pyWordCount (s : String) : ℕ :=
  pyWordCountL s.toList

/-- Python `len(re.findall(r'\d+', s))`: number of maximal digit runs. -/
def countDigitRuns (s : String) : ℕ :=
  countRunsAux Char.isDigit s.toList false

/-- Python `s.replace(a+b, r)` for a two-character pattern `a b`:
left-to-right, non-overlapping replacement by `r`. -/
def pyReplace2 (a b : Char) (r : List Char) : List Char → List Char
  | x :: y :: rest =>
    if x = a ∧ y = b then r ++ pyReplace2 a b r rest
    else x :: pyReplace2 a b r (y :: rest)
  | s => s

/-- Python `s.split(sep)` for a one-character separator: the list of
((possibly empty)) segments between occurrences of `sep`. -/
def pySplitChar (sep : Char) : List Char → List (List Char)
  | [] => [[]]
  | c :: rest =>
    if c = sep then [] :: pySplitChar sep rest
    else
      match pySplitChar sep rest with
      | [] => [[c]]
      | h :: t => (c :: h) :: t

/-! ## Confidence scorers

`calculate_confidence_score` (research_handler.py, lines 351–396) and
`calculate_chapter_confidence` (book_generator.py, lines 437–465).
-/

/-- `research_handler.calculate_confidence_score(content, section)`. -/
def calculate_confidence_score (content : String) (sectionName : String) : ℤ :=
  let confidence : ℤ := 75
  let confidence :=
    if content.length > 200 then confidence + 5
    else if content.length > 150 then confidence + 3
    else confidence
  let numbers := countDigitRuns content
  let confidence :=
    if numbers > 0 then confidence + min ((numbers : ℤ) * 2) 8 else confidence
  let confidence :=
    if '%' ∈ content.toList then confidence + 5 else confidence
  let confidence :=
    if sectionName = "Key Statistics" ∧ numbers > 0 then confidence + 5
    else confidence
  let confidence :=
    if sectionName = "Overview" ∧ content.length > 100 then confidence + 3
    else confidence
  max 70 (min 98 confidence)

/-- `book_generator.calculate_chapter_confidence(content, base_confidence=80)`. -/
def calculate_chapter_confidence (content : String) (base_confidence : ℤ := 80) : ℤ :=
  let confidence := base_confidence
  let word_count := pyWordCount content
  let confidence :=
    if word_count > 300 then confidence + 5
    else if word_count > 200 then confidence + 3
    else confidence
  let paragraphs := content.splitOn "\n\n"
  let confidence := if paragraphs.length ≥ 3 then confidence + 4 else confidence
  max 70 (min 95 confidence)

/-- C6: for every content string and section name, the research-variant scorer
`calculate_confidence_score` returns an integer in `[70, 98]`; for every
content string and every base, the chapter-variant scorer
`calculate_chapter_confidence` returns an integer in `[70, 95]`. -/
theorem c6_scorer_ranges :
    (∀ content sectionName : String,
      70 ≤ calculate_confidence_score content sectionName ∧
        calculate_confidence_score content sectionName ≤ 98) ∧
    (∀ (content : String) (base : ℤ),
      70 ≤ calculate_chapter_confidence content base ∧
        calculate_chapter_confidence content base ≤ 95) := by
  constructor
  · intro content sectionName
    unfold calculate_confidence_score
    exact ⟨le_max_left _ _, max_le (by norm_num) (min_le_left _ _)⟩
  · intro content base
    unfold calculate_chapter_confidence
    exact ⟨le_max_left _ _, max_le (by norm_num) (min_le_left _ _)⟩

/-! ## Quality gate

`orchestrator._validate_research_quality` (orchestrator.py, lines 264–308).
The input is the list of per-section confidence values (the source extracts
`item.get('confidence', 0)` from each result dict; the caller supplies that
list here).  Python `round(x, 1)` is modelled as exact rounding of a rational
to one decimal place.
-/

/-- Python `round(x)` (round half to even, "banker's rounding") modelled
exactly over `ℚ`. -/
def pyRound (q : ℚ) : ℤ :=
  if q - ⌊q⌋ < 1 / 2 then ⌊q⌋
  else if (1 / 2 : ℚ) < q - ⌊q⌋ then ⌊q⌋ + 1
  else if ⌊q⌋ % 2 = 0 then ⌊q⌋ else ⌊q⌋ + 1

/-- Python `round(x, 1)` modelled over `ℚ`: round `10 * x` to the nearest
integer (half to even) and divide by `10`. -/
def roundTenths (q : ℚ) : ℚ :=
  (pyRound (q * 10) : ℚ) / 10

/-- The `confidence_distribution` dict of the non-empty branch. -/
structure ConfidenceDistribution where
  high : ℕ
  medium : ℕ
  low : ℕ
deriving DecidableEq, Repr

/-- The dict returned by `_validate_research_quality`.  The empty-result
branch of the source returns a dict without the `confidence_distribution`
key, hence the `Option`. -/
structure QualityVerdict where
  acceptable : Bool
  average_confidence : ℚ
  total_sections : ℕ
  high_confidence_count : ℕ
  confidence_distribution : Option ConfidenceDistribution
deriving DecidableEq, Repr

/-- `orchestrator._validate_research_quality`, with `min_confidence` the
orchestrator's threshold attribute. -/
def validate_research_quality (confidences : List ℚ) (min_confidence : ℚ) :
    QualityVerdict :=
  if confidences = [] then
    { acceptable := false
      average_confidence := 0
      total_sections := 0
      high_confidence_count := 0
      confidence_distribution := none }
  else
    let average := confidences.sum / confidences.length
    let high_confidence := (confidences.filter (fun c => 85 ≤ c)).length
    let acceptable :=
      decide (min_confidence ≤ average) &&
        decide ((confidences.length : ℚ) * (1 / 2) ≤ (high_confidence : ℚ))
    { acceptable := acceptable
      average_confidence := roundTenths average
      total_sections := confidences.length
      high_confidence_count := high_confidence
      confidence_distribution := some
        { high := high_confidence
          medium := (confidences.filter (fun c => 70 ≤ c ∧ c < 85)).length
          low := (confidences.filter (fun c => c < 70)).length } }

/-- C1 (amended): for every non-empty list of section confidences and every
threshold, the verdict's `average_confidence` is the arithmetic mean of the
confidences *rounded to one decimal place* (not the exact mean),
`high_confidence_count` is the number of sections with confidence ≥ 85, and
`acceptable` holds exactly when the (exact) mean is ≥ the threshold and the
high-confidence count is at least half the number of sections (a count of
exactly half satisfies it). -/
theorem c1_quality_gate_amended (confidences : List ℚ) (threshold : ℚ)
    (h : confidences ≠ []) :
    (validate_research_quality confidences threshold).average_confidence =
      roundTenths (confidences.sum / confidences.length) ∧
    (validate_research_quality confidences threshold).high_confidence_count =
      (confidences.filter (fun c => 85 ≤ c)).length ∧
    ((validate_research_quality confidences threshold).acceptable = true ↔
      threshold ≤ confidences.sum / confidences.length ∧
        confidences.length ≤
          2 * (validate_research_quality confidences threshold).high_confidence_count) := by
  simp only [validate_research_quality, if_neg h]
  refine ⟨trivial, trivial, ?_⟩
  rw [Bool.and_eq_true, decide_eq_true_iff, decide_eq_true_iff]
  constructor
  · rintro ⟨h1, h2⟩
    refine ⟨h1, ?_⟩
    have h2' : (confidences.length : ℚ) ≤
        2 * ((confidences.filter (fun c => 85 ≤ c)).length : ℚ) := by linarith
    exact_mod_cast h2'
  · rintro ⟨h1, h2⟩
    refine ⟨h1, ?_⟩
    have h2' : (confidences.length : ℚ) ≤
        2 * ((confidences.filter (fun c => 85 ≤ c)).length : ℚ) := by
      exact_mod_cast h2
    linarith

/-- Witness for C1: the spec's own example — confidences `[90, 90, 60, 60]`
with threshold `70` yield `acceptable = true`, reported average `75`, and
high-confidence count `2`. -/
theorem c1_quality_gate_witness :
    (validate_research_quality [90, 90, 60, 60] 70).acceptable = true ∧
    (validate_research_quality [90, 90, 60, 60] 70).average_confidence = 75 ∧
    (validate_research_quality [90, 90, 60, 60] 70).high_confidence_count = 2 := by
  have h := c1_quality_gate_amended [90, 90, 60, 60] 70 (by decide)
  have hcount : (validate_research_quality [90, 90, 60, 60] 70).high_confidence_count = 2 := by
    decide
  have havg : ([90, 90, 60, 60] : List ℚ).sum /
      ((([90, 90, 60, 60] : List ℚ).length : ℕ) : ℚ) = 75 := by
    norm_num [List.sum_cons, List.sum_nil]
  refine ⟨h.2.2.mpr ⟨by rw [havg]; norm_num, by rw [hcount]; decide⟩, ?_, hcount⟩
  rw [h.1, havg]
  have hf : ⌊(75 * 10 : ℚ)⌋ = 750 := by
    rw [Int.floor_eq_iff]
    norm_num
  rw [roundTenths, pyRound, hf]
  norm_num

/-- Counterexample for C1: with confidences `[70, 70, 71]` the reported
`average_confidence` is `70.3`, which is not the arithmetic mean `211/3`. -/
theorem c1_quality_gate_counterexample :
    (validate_research_quality [70, 70, 71] 70).average_confidence = 703 / 10 ∧
    (703 / 10 : ℚ) ≠ ([70, 70, 71] : List ℚ).sum / ([70, 70, 71] : List ℚ).length := by
  have hne : ([70, 70, 71] : List ℚ) ≠ [] := by decide
  have hsum : ([70, 70, 71] : List ℚ).sum = 211 := by
    norm_num [List.sum_cons, List.sum_nil]
  constructor
  · simp only [validate_research_quality, if_neg hne, hsum, List.length_cons,
      List.length_nil]
    have hf : ⌊(211 / (((3 : ℕ) : ℚ)) * 10)⌋ = 703 := by
      rw [Int.floor_eq_iff]
      norm_num
    rw [roundTenths, pyRound, hf]
    norm_num
  · rw [hsum]
    norm_num

/-- C10 (amended): validating an empty section list returns
`acceptable = false` with `average_confidence`, `total_sections` and
`high_confidence_count` all zero — but the returned verdict carries *no*
`confidence_distribution` at all (the empty-result branch omits the key),
rather than distribution buckets that are all zero. -/
theorem c10_empty_validation_amended (threshold : ℚ) :
    validate_research_quality [] threshold =
      { acceptable := false
        average_confidence := 0
        total_sections := 0
        high_confidence_count := 0
        confidence_distribution := none } := rfl

/-- Counterexample for C10: on an empty section list the verdict's
distribution is absent (`none`); in particular it is not the all-zero
bucket triple the claim describes. -/
theorem c10_empty_validation_counterexample :
    (validate_research_quality [] 70).confidence_distribution ≠
      some { high := 0, medium := 0, low := 0 } ∧
    (validate_research_quality [] 70).confidence_distribution = none := by
  exact ⟨by decide, rfl⟩

/-! ## Research stage

`research_handler.create_research_prompt` (lines 197–238) and
`research_handler.generate_research` (lines 129–194).  The two text backends
`generate_with_bedrock` / `generate_with_groq` are modelled as oracles
`String → Option String`: `some content` is a successful (non-empty)
completion, `none` is the raised-exception path.
-/

/-- `research_handler.create_research_prompt(topic, section)`. -/
def create_research_prompt (topic : String) (sectionName : String) : String :=
  if sectionName = "Overview" then
    "Provide a comprehensive overview of " ++ topic ++ ". \n" ++
    "Include definition, key concepts, and current relevance. \n" ++
    "Be factual and concise (2-3 sentences)."
  else if sectionName = "Key Statistics" then
    "Provide 2-3 key statistics about " ++ topic ++ ".\n" ++
    "Include recent data with specific numbers and percentages.\n" ++
    "Focus on market size, adoption rates, or growth trends."
  else if sectionName = "Advantages" then
    "List the main advantages and benefits of " ++ topic ++ ".\n" ++
    "Include 3-4 key benefits with brief explanations.\n" ++
    "Focus on practical, real-world benefits."
  else if sectionName = "Challenges" then
    "Describe the main challenges and limitations of " ++ topic ++ ".\n" ++
    "Include 3-4 significant challenges with brief context.\n" ++
    "Be balanced and objective."
  else if sectionName = "Future Outlook" then
    "Provide insights on the future prospects of " ++ topic ++ ".\n" ++
    "Include projections, trends, and expected developments.\n" ++
    "Focus on the next 5-10 years."
  else if sectionName = "Recommendations" then
    "Provide practical recommendations for someone considering " ++ topic ++ ".\n" ++
    "Include 3-4 actionable suggestions.\n" ++
    "Focus on evaluation criteria and best practices."
  else
    "Provide detailed information about " ++ sectionName ++ " for " ++ topic ++ "."

/-- One entry of the list built by `generate_research`: the dict
`{'section': …, 'details': …, 'confidence': …, 'source': …}`. -/
structure ResearchEntry where
  sectionName : String
  details : String
  confidence : ℤ
  source : String
deriving DecidableEq, Repr

/-- The canned content appended when both backends fail for a section. -/
def research_fallback_text (sectionName : String) : String :=
  "Research data for " ++ sectionName ++ " is currently unavailable. Please try again later."

/-- `research_handler.generate_research(topic, sections)`, with the Bedrock
and Groq backends as oracles.  Mirrors the source loop: one entry is appended
per section, trying Bedrock, then Groq, then the fixed fallback entry. -/
def generate_research (bedrock groq : String → Option String) (topic : String) :
    List String → List ResearchEntry
  | [] => []
  | s :: rest =>
    (match bedrock (create_research_prompt topic s) with
     | some content =>
       { sectionName := s
         details := content
         confidence := calculate_confidence_score content s
         source := "bedrock" }
     | none =>
       match groq (create_research_prompt topic s) with
       | some content =>
         { sectionName := s
           details := content
           confidence := calculate_confidence_score content s
           source := "groq" }
       | none =>
         { sectionName := s
           details := research_fallback_text s
           confidence := 50
           source := "fallback" }) :: generate_research bedrock groq topic rest

/-- C5: for every pair of backends, every topic and every ordered list of `N`
section names, `generate_research` returns exactly `N` entries in the input
order (entry `i` belongs to section `i`); a section for which both backends
fail yields exactly the canned fallback entry (content
"Research data for {section} is currently unavailable. Please try again
later.", confidence 50, source "fallback"), and this is a fact about that
entry alone — the other `N - 1` sections are still processed. -/
theorem c5_research_fallback (bedrock groq : String → Option String)
    (topic : String) (sections : List String) :
    (generate_research bedrock groq topic sections).length = sections.length ∧
    ∀ i (h : i < sections.length),
      ((generate_research bedrock groq topic sections)[i]?).map
          ResearchEntry.sectionName = some sections[i] ∧
      (bedrock (create_research_prompt topic sections[i]) = none →
        groq (create_research_prompt topic sections[i]) = none →
        (generate_research bedrock groq topic sections)[i]? = some
          { sectionName := sections[i]
            details := research_fallback_text sections[i]
            confidence := 50
            source := "fallback" }) := by
  induction sections with
  | nil =>
    exact ⟨rfl, fun i h => absurd h (Nat.not_lt_zero i)⟩
  | cons s rest ih =>
    refine ⟨?_, ?_⟩
    · simpa [generate_research] using ih.1
    · intro i h
      cases i with
      | zero =>
        refine ⟨?_, ?_⟩
        · cases hb : bedrock (create_research_prompt topic s) with
          | some content => simp [generate_research, hb]
          | none =>
            cases hg : groq (create_research_prompt topic s) with
            | some content => simp [generate_research, hb, hg]
            | none => simp [generate_research, hb, hg]
        · intro hb hg
          simp only [List.getElem_cons_zero] at hb hg
          simp [generate_research, hb, hg]
      | succ j =>
        have hj : j < rest.length := Nat.lt_of_succ_lt_succ h
        have hrec := ih.2 j hj
        refine ⟨?_, ?_⟩
        · simpa [generate_research] using hrec.1
        · intro hb hg
          have := hrec.2 (by simpa using hb) (by simpa using hg)
          simpa [generate_research] using this

/-- Witness for C5: with both backends failing, a two-section request yields
two entries in order, the first being the canned fallback entry. -/
theorem c5_research_fallback_witness :
    (generate_research (fun _ => none) (fun _ => none) "T" ["A", "B"]).length = 2 ∧
    (generate_research (fun _ => none) (fun _ => none) "T" ["A", "B"])[0]? = some
      { sectionName := "A"
        details := "Research data for A is currently unavailable. Please try again later."
        confidence := 50
        source := "fallback" } := by
  have h := c5_research_fallback (fun _ => none) (fun _ => none) "T" ["A", "B"]
  refine ⟨h.1, ?_⟩
  have h0 := (h.2 0 (by decide)).2 rfl rfl
  simpa [research_fallback_text] using h0

/-! ## Book stage

`book_generator.generate_book` (lines 114–205) with its helpers
`generate_introduction` (208–260), `generate_chapter` (263–335) and
`generate_conclusion` (338–392).  `generate_with_bedrock` is an oracle
`String → Option String` as before.
-/

/-- One element of `research_data` as read by `generate_book`:
`item.get('section', '')`, `item.get('details', '')`,
`item.get('confidence', 80)`. -/
structure ResearchItem where
  sectionName : String
  details : String
  confidence : ℤ
deriving DecidableEq, Repr

/-- A sub-section of a chapter. -/
structure ChapterSection where
  section_title : String
  content : String
  confidence : ℤ
deriving DecidableEq, Repr

/-- A chapter dict as built by the book stage. -/
structure Chapter where
  chapter_number : ℕ
  title : String
  content : String
  word_count : ℕ
  confidence : ℤ
  sections : List ChapterSection
deriving DecidableEq, Repr

/-- One entry of `book['table_of_contents']`. -/
structure TocEntry where
  chapter_number : ℕ
  title : String
  page : ℕ
deriving DecidableEq, Repr

/-- The book dict assembled by `generate_book` (the timestamp field is
omitted: it is wall-clock I/O). -/
structure Book where
  title : String
  topic : String
  author : String
  chapters : List Chapter
  table_of_contents : List TocEntry
  word_count : ℕ
  average_confidence : ℚ
deriving DecidableEq, Repr

/-- The introduction prompt of `generate_introduction`. -/
def introduction_prompt (topic : String) : String :=
  "Write a compelling introduction for a comprehensive guide about " ++ topic ++ ".\n\n" ++
  "The introduction should:\n" ++
  "1. Capture reader interest with a strong opening\n" ++
  "2. Explain why " ++ topic ++ " is important and relevant\n" ++
  "3. Outline what readers will learn from this guide\n" ++
  "4. Set expectations for the depth and breadth of coverage\n\n" ++
  "Write 3-4 paragraphs in a professional yet accessible tone."

/-- The chapter-expansion prompt of `generate_chapter`. -/
def chapter_prompt (topic title research_content : String) : String :=
  "Expand the following research insight into a comprehensive book chapter.\n\n" ++
  "Topic: " ++ topic ++ "\n" ++
  "Chapter Title: " ++ title ++ "\n" ++
  "Research Content: " ++ research_content ++ "\n\n" ++
  "Create a detailed chapter that:\n" ++
  "1. Opens with context and relevance\n" ++
  "2. Expands on key points with explanations\n" ++
  "3. Includes practical examples where appropriate\n" ++
  "4. Maintains a professional yet accessible tone\n" ++
  "5. Concludes with key takeaways\n\n" ++
  "Write 4-6 paragraphs. Be informative and engaging."

/-- The conclusion prompt of `generate_conclusion`. -/
def conclusion_prompt (topic : String) (sectionNames : List String) : String :=
  "Write a comprehensive conclusion for a guide about " ++ topic ++ ".\n\n" ++
  "The guide covered these topics:\n" ++ String.intercalate ", " sectionNames ++ "\n\n" ++
  "The conclusion should:\n" ++
  "1. Synthesize key insights from throughout the guide\n" ++
  "2. Emphasize the most important takeaways\n" ++
  "3. Provide forward-looking perspective\n" ++
  "4. End with actionable recommendations\n\n" ++
  "Write 3-4 paragraphs that bring the guide to a strong close."

/-- The canned introduction used when introduction generation fails. -/
def intro_fallback_text (topic : String) : String :=
  "This comprehensive guide explores " ++ topic ++
    " in detail, providing insights, analysis, and practical information."

/-- The canned conclusion used when conclusion generation fails. -/
def conclusion_fallback_text (topic : String) : String :=
  "This guide has explored " ++ topic ++
    " from multiple angles, providing comprehensive insights and practical information."

/-- `book_generator.generate_introduction(topic, research_data)`.  On failure
the source hardcodes `'word_count': 15` next to the canned content. -/
def generate_introduction (gen : String → Option String) (topic : String) : Chapter :=
  match gen (introduction_prompt topic) with
  | some content =>
    { chapter_number := 1
      title := "Introduction"
      content := content
      word_count := pyWordCount content
      confidence := calculate_chapter_confidence content
      sections := [] }
  | none =>
    { chapter_number := 1
      title := "Introduction"
      content := intro_fallback_text topic
      word_count := 15
      confidence := 70
      sections := [] }

/-- `book_generator.generate_chapter(chapter_number, title, research_content,
topic, base_confidence)`. -/
def generate_chapter (gen : String → Option String) (chapter_number : ℕ)
    (title research_content topic : String) (base_confidence : ℤ) : Chapter :=
  match gen (chapter_prompt topic title research_content) with
  | some content =>
    let confidence := calculate_chapter_confidence content base_confidence
    { chapter_number := chapter_number
      title := title
      content := content
      word_count := pyWordCount content
      confidence := confidence
      sections := [{ section_title := title, content := content, confidence := confidence }] }
  | none =>
    { chapter_number := chapter_number
      title := title
      content := research_content
      word_count := pyWordCount research_content
      confidence := max (base_confidence - 10) 60
      sections := [] }

/-- `book_generator.generate_conclusion(topic, research_data)`.  Both branches
carry the placeholder `chapter_number = 99` ("will be updated by caller");
on failure the source hardcodes `'word_count': 15`. -/
def generate_conclusion (gen : String → Option String) (topic : String)
    (research_data : List ResearchItem) : Chapter :=
  match gen (conclusion_prompt topic (research_data.map ResearchItem.sectionName)) with
  | some content =>
    { chapter_number := 99
      title := "Conclusion"
      content := content
      word_count := pyWordCount content
      confidence := calculate_chapter_confidence content
      sections := [] }
  | none =>
    { chapter_number := 99
      title := "Conclusion"
      content := conclusion_fallback_text topic
      word_count := 15
      confidence := 70
      sections := [] }

/-- The research-section loop of `generate_book`: chapter `n` (starting at 2)
and its table-of-contents entry, appended in lockstep. -/
def build_research_chapters (gen : String → Option String) (topic : String) :
    List ResearchItem → ℕ → List (Chapter × TocEntry)
  | [], _ => []
  | item :: rest, n =>
    (generate_chapter gen n item.sectionName item.details topic item.confidence,
      { chapter_number := n, title := item.sectionName, page := n }) ::
      build_research_chapters gen topic rest (n + 1)

/-- `book_generator.generate_book(topic, research_data, title)`.  After the
loop the Python variable `chapter_number` equals `2 + len(research_data)`;
that value goes into the conclusion's table-of-contents entry, while the
conclusion chapter itself keeps `chapter_number = 99`. -/
def generate_book (gen : String → Option String) (topic : String)
    (research_data : List ResearchItem) (title : String) : Book :=
  let intro := generate_introduction gen topic
  let pairs := build_research_chapters gen topic research_data 2
  let concl := generate_conclusion gen topic research_data
  let chapters := intro :: (pairs.map Prod.fst ++ [concl])
  let toc : List TocEntry :=
    { chapter_number := 1, title := "Introduction", page := 1 } ::
      (pairs.map Prod.snd ++
        [{ chapter_number := 2 + research_data.length, title := "Conclusion",
           page := 2 + research_data.length }])
  { title := title
    topic := topic
    author := "AI Research Assistant"
    chapters := chapters
    table_of_contents := toc
    word_count := (chapters.map Chapter.word_count).sum
    average_confidence :=
      roundTenths (((chapters.map Chapter.confidence).sum : ℚ) / chapters.length) }

/-- C8: when the expansion call fails, `generate_chapter` falls back to the
original, unexpanded research content, confidence
`max(original_confidence - 10, 60)`, and an empty sub-section list. -/
theorem c8_chapter_fallback (gen : String → Option String) (chapter_number : ℕ)
    (title research_content topic : String) (base_confidence : ℤ)
    (h : gen (chapter_prompt topic title research_content) = none) :
    generate_chapter gen chapter_number title research_content topic base_confidence =
      { chapter_number := chapter_number
        title := title
        content := research_content
        word_count := pyWordCount research_content
        confidence := max (base_confidence - 10) 60
        sections := [] } := by
  simp [generate_chapter, h]

/-- Witness for C8: a concrete failed expansion keeps the research content,
confidence `max(80 - 10, 60) = 70`, and no sub-sections. -/
theorem c8_chapter_fallback_witness :
    generate_chapter (fun _ => none) 2 "A" "x y" "T" 80 =
      { chapter_number := 2
        title := "A"
        content := "x y"
        word_count := pyWordCount "x y"
        confidence := max (80 - 10) 60
        sections := [] } :=
  c8_chapter_fallback (fun _ => none) 2 "A" "x y" "T" 80 rfl

/-- C2 (code evaluated at the failing input): with one research section, the
chapters of the generated book carry numbers `[1, 2, 99]` — the conclusion
keeps its placeholder 99 — while the table of contents carries `[1, 2, 3]`;
the final renumbering pass the spec describes does not exist. -/
theorem c2_conclusion_number_bug :
    ((generate_book (fun _ => none) "T"
        [{ sectionName := "A", details := "x", confidence := 80 }] "B").chapters.map
      Chapter.chapter_number) = [1, 2, 99] ∧
    ((generate_book (fun _ => none) "T"
        [{ sectionName := "A", details := "x", confidence := 80 }] "B").table_of_contents.map
      TocEntry.chapter_number) = [1, 2, 3] := by
  constructor
  · rfl
  · rfl

/-- Every chapter built by `generate_chapter` has its `word_count` derived
from its `content` (both the success and the fallback branch). -/
theorem generate_chapter_word_count (gen : String → Option String) (n : ℕ)
    (title research_content topic : String) (base_confidence : ℤ) :
    (generate_chapter gen n title research_content topic base_confidence).word_count =
      pyWordCount (generate_chapter gen n title research_content topic base_confidence).content := by
  cases h : gen (chapter_prompt topic title research_content) with
  | some content => simp [generate_chapter, h]
  | none => simp [generate_chapter, h]

/-- Chapters coming out of the research-section loop are `generate_chapter`
results. -/
theorem build_research_chapters_mem (gen : String → Option String) (topic : String) :
    ∀ (l : List ResearchItem) (n : ℕ) (ch : Chapter),
      ch ∈ (build_research_chapters gen topic l n).map Prod.fst →
      ∃ (item : ResearchItem) (m : ℕ),
        ch = generate_chapter gen m item.sectionName item.details topic item.confidence
  | [], _, ch, h => absurd h (by simp [build_research_chapters])
  | item :: rest, n, ch, h => by
    rw [build_research_chapters, List.map_cons, List.mem_cons] at h
    rcases h with h | h
    · exact ⟨item, n, h⟩
    · exact build_research_chapters_mem gen topic rest (n + 1) ch h

/-- C9 (amended): in every book produced by `generate_book`, every chapter's
`word_count` equals the whitespace word count of its content at creation
time, *except* the generation-failure fallback chapters of the introduction
and conclusion, whose `word_count` is the hardcoded constant 15 regardless of
their canned content's actual word count. -/
theorem c9_word_count_amended (gen : String → Option String) (topic : String)
    (research_data : List ResearchItem) (title : String) (ch : Chapter)
    (hch : ch ∈ (generate_book gen topic research_data title).chapters) :
    ch.word_count = pyWordCount ch.content ∨
    (ch.word_count = 15 ∧
      (ch.content = intro_fallback_text topic ∨
        ch.content = conclusion_fallback_text topic)) := by
  simp only [generate_book, List.mem_cons, List.mem_append, List.mem_singleton] at hch
  rcases hch with h | h | h | h
  · subst h
    cases hg : gen (introduction_prompt topic) with
    | some content => left; simp [generate_introduction, hg]
    | none => right; simp [generate_introduction, hg]
  · obtain ⟨item, m, rfl⟩ := build_research_chapters_mem gen topic research_data 2 ch h
    left
    exact generate_chapter_word_count gen m item.sectionName item.details topic item.confidence
  · subst h
    cases hg : gen (conclusion_prompt topic (research_data.map ResearchItem.sectionName)) with
    | some content => left; simp [generate_conclusion, hg]
    | none => right; simp [generate_conclusion, hg]
  · exact absurd h (List.not_mem_nil _)

/-- Witness for C9: a successfully generated introduction chapter, as a member
of a concrete book, has its word count derived from its content. -/
theorem c9_word_count_witness :
    (generate_introduction (fun _ => some "Alpha beta gamma") "T").word_count =
      pyWordCount (generate_introduction (fun _ => some "Alpha beta gamma") "T").content ∨
    ((generate_introduction (fun _ => some "Alpha beta gamma") "T").word_count = 15 ∧
      ((generate_introduction (fun _ => some "Alpha beta gamma") "T").content =
          intro_fallback_text "T" ∨
        (generate_introduction (fun _ => some "Alpha beta gamma") "T").content =
          conclusion_fallback_text "T")) := by
  refine c9_word_count_amended (fun _ => some "Alpha beta gamma") "T"
    [{ sectionName := "A", details := "x y", confidence := 80 }] "B" _ ?_
  simp only [generate_book]
  exact List.mem_cons_self _ _

/-- Counterexample for C9: with a one-word topic and failing generation, both
fallback chapters of the produced book report `word_count = 15` while their
contents actually have 13 and 14 words. -/
theorem c9_word_count_counterexample :
    ((generate_book (fun _ => none) "AI" [] "B").chapters.map
      (fun ch => (ch.word_count, pyWordCount ch.content))) = [(15, 13), (15, 14)] ∧
    (15 : ℕ) ≠ 13 := by
  constructor
  · decide
  · decide

/-! ## Audiobook stage: chunking

`audiobook_generator.split_text_into_chunks` (lines 386–419).  The source
computes `text.replace('! ', '!|').replace('? ', '?|').replace('. ', '.|')
.split('|')` and then greedily packs the resulting fragments.  Text is
modelled as `List Char` (Python `str` is a sequence of code points).
-/

/-- The sentence-boundary marking pass of `split_text_into_chunks`:
`replace('! ', '!|')`, then `replace('? ', '?|')`, then `replace('. ', '.|')`. -/
def boundary_marked (s : List Char) : List Char :=
  pyReplace2 '.' ' ' ['.', '|']
    (pyReplace2 '?' ' ' ['?', '|']
      (pyReplace2 '!' ' ' ['!', '|'] s))

/-- The `sentences` list of `split_text_into_chunks`: the marked text split
at `'|'`. -/
def sentence_fragments (s : List Char) : List (List Char) :=
  pySplitChar '|' (boundary_marked s)

/-- One iteration of the packing loop of `split_text_into_chunks`: the state
is `(chunks, current_chunk)`. -/
def pack_step (m : ℕ) : List (List Char) × List Char → List Char → List (List Char) × List Char
  | (chunks, cc), sentence =>
    if cc.length + sentence.length ≤ m then (chunks, cc ++ sentence)
    else if cc = [] then (chunks, sentence)
    else (chunks ++ [cc], sentence)

/-- The packing loop plus the final flush of a non-empty `current_chunk`. -/
def pack_fragments (l : List (List Char)) (m : ℕ) : List (List Char) :=
  let p := l.foldl (pack_step m) ([], [])
  if p.2 = [] then p.1 else p.1 ++ [p.2]

/-- `audiobook_generator.split_text_into_chunks(text, max_size)`. -/
def split_text_into_chunks (text : List Char) (max_size : ℕ) : List (List Char) :=
  if text.length ≤ max_size then [text]
  else pack_fragments (sentence_fragments text) max_size

/-- `pyReplace2` skips a head character that differs from the pattern head. -/
theorem pyReplace2_cons_ne (a b : Char) (r : List Char) (c : Char)
    (hc : c ≠ a) : ∀ s : List Char, pyReplace2 a b r (c :: s) = c :: pyReplace2 a b r s
  | [] => rfl
  | y :: t => by
    simp only [pyReplace2]
    rw [if_neg]
    rintro ⟨h1, _⟩
    exact hc h1

/-- `pyReplace2` is the identity when the pattern head does not occur. -/
theorem pyReplace2_of_not_mem (a b : Char) (r : List Char) :
    ∀ s : List Char, a ∉ s → pyReplace2 a b r s = s
  | [], _ => rfl
  | c :: rest, h => by
    have hc : c ≠ a := fun e => h (e ▸ List.mem_cons_self c rest)
    rw [pyReplace2_cons_ne a b r c hc rest,
      pyReplace2_of_not_mem a b r rest (fun hm => h (List.mem_cons_of_mem c hm))]

/-- `pySplitChar` returns the whole string when the separator does not occur. -/
theorem pySplitChar_of_not_mem (sep : Char) :
    ∀ s : List Char, sep ∉ s → pySplitChar sep s = [s]
  | [], _ => rfl
  | c :: rest, h => by
    have hc : c ≠ sep := fun e => h (e ▸ List.mem_cons_self c rest)
    rw [pySplitChar, if_neg hc,
      pySplitChar_of_not_mem sep rest (fun hm => h (List.mem_cons_of_mem c hm))]

/-- Invariant of the packing loop: every accumulated chunk, and the current
chunk, is either within the size limit or one of the original fragments. -/
theorem pack_loop_invariant (m : ℕ) (l₀ : List (List Char)) :
    ∀ l : List (List Char), (∀ x ∈ l, x ∈ l₀) →
    ∀ (acc : List (List Char)) (cc : List Char),
      (∀ ch ∈ acc, ch.length ≤ m ∨ ch ∈ l₀) → (cc.length ≤ m ∨ cc ∈ l₀) →
      (∀ ch ∈ (l.foldl (pack_step m) (acc, cc)).1, ch.length ≤ m ∨ ch ∈ l₀) ∧
      ((l.foldl (pack_step m) (acc, cc)).2.length ≤ m ∨
        (l.foldl (pack_step m) (acc, cc)).2 ∈ l₀)
  | [], _, acc, cc, hacc, hcc => ⟨hacc, hcc⟩
  | s :: rest, hsub, acc, cc, hacc, hcc => by
    rw [List.foldl_cons]
    have hs : s ∈ l₀ := hsub s (List.mem_cons_self s rest)
    have hrest : ∀ x ∈ rest, x ∈ l₀ := fun x hx => hsub x (List.mem_cons_of_mem s hx)
    rw [pack_step]
    by_cases hfit : cc.length + s.length ≤ m
    · rw [if_pos hfit]
      exact pack_loop_invariant m l₀ rest hrest acc (cc ++ s) hacc
        (Or.inl (by rw [List.length_append]; exact hfit))
    · rw [if_neg hfit]
      by_cases hnil : cc = []
      · rw [if_pos hnil]
        exact pack_loop_invariant m l₀ rest hrest acc s hacc (Or.inr hs)
      · rw [if_neg hnil]
        refine pack_loop_invariant m l₀ rest hrest (acc ++ [cc]) s ?_ (Or.inr hs)
        intro ch hch
        rcases List.mem_append.mp hch with h | h
        · exact hacc ch h
        · rw [List.mem_singleton] at h
          exact h ▸ hcc

/-- Every chunk produced by the packing phase is within the limit or is a
single original fragment. -/
theorem pack_fragments_mem_bound (l : List (List Char)) (m : ℕ) (chunk : List Char)
    (h : chunk ∈ pack_fragments l m) : chunk.length ≤ m ∨ chunk ∈ l := by
  have inv := pack_loop_invariant m l l (fun x hx => hx) [] []
    (fun ch hch => absurd hch (List.not_mem_nil ch)) (Or.inl (Nat.zero_le m))
  rw [pack_fragments] at h
  by_cases hnil : (l.foldl (pack_step m) ([], [])).2 = []
  · rw [if_pos hnil] at h
    exact inv.1 chunk h
  · rw [if_neg hnil] at h
    rcases List.mem_append.mp h with h | h
    · exact inv.1 chunk h
    · rw [List.mem_singleton] at h
      exact h ▸ inv.2

/-- C4 (amended): every chunk returned by `split_text_into_chunks` either has
length at most `max_size` or is a single sentence fragment of the boundary
split — the packing loop never cuts an oversized fragment, so a text with no
sentence boundary comes back whole even when it exceeds the limit. -/
theorem c4_chunk_bound_amended (text : List Char) (max_size : ℕ) (chunk : List Char)
    (h : chunk ∈ split_text_into_chunks text max_size) :
    chunk.length ≤ max_size ∨ chunk ∈ sentence_fragments text := by
  rw [split_text_into_chunks] at h
  by_cases hle : text.length ≤ max_size
  · rw [if_pos hle] at h
    rw [List.mem_singleton] at h
    exact Or.inl (h ▸ hle)
  · rw [if_neg hle] at h
    exact pack_fragments_mem_bound (sentence_fragments text) max_size chunk h

/-- Witness for C4: the first chunk of a concrete split is within the limit. -/
theorem c4_chunk_bound_witness :
    "aa.".toList.length ≤ 4 ∨ "aa.".toList ∈ sentence_fragments "aa. bb".toList :=
  c4_chunk_bound_amended "aa. bb".toList 4 "aa.".toList (by decide)

/-- Packing a single oversized fragment returns it unchanged. -/
theorem pack_fragments_singleton (s : List Char) (m : ℕ)
    (hlen : ¬ s.length ≤ m) (hne : s ≠ []) : pack_fragments [s] m = [s] := by
  have hcond : ¬ (([] : List Char).length + s.length ≤ m) := by simpa using hlen
  have h1 : List.foldl (pack_step m) ([], []) [s] = ([], s) := by
    rw [List.foldl_cons, List.foldl_nil, pack_step, if_neg hcond, if_pos rfl]
  simp only [pack_fragments, h1]
  simp [hne]

/-- Counterexample for C4: a 9501-character text with no sentence-ending
punctuation is returned as a single chunk of length 9501 > 9500. -/
theorem c4_chunk_bound_counterexample :
    split_text_into_chunks (List.replicate 9501 'a') 9500 = [List.replicate 9501 'a'] ∧
    ¬ ((List.replicate 9501 'a').length ≤ 9500) := by
  have hnm : ∀ c : Char, c ≠ 'a' → c ∉ List.replicate 9501 'a' := by
    intro c hc hm
    exact hc (List.eq_of_mem_replicate hm)
  have hmark : boundary_marked (List.replicate 9501 'a') = List.replicate 9501 'a' := by
    rw [boundary_marked,
      pyReplace2_of_not_mem _ _ _ _ (hnm '!' (by decide)),
      pyReplace2_of_not_mem _ _ _ _ (hnm '?' (by decide)),
      pyReplace2_of_not_mem _ _ _ _ (hnm '.' (by decide))]
  have hfrag : sentence_fragments (List.replicate 9501 'a') = [List.replicate 9501 'a'] := by
    rw [sentence_fragments, hmark, pySplitChar_of_not_mem _ _ (hnm '|' (by decide))]
  have hlen : (List.replicate 9501 'a').length = 9501 := List.length_replicate 9501 'a'
  have hbig : ¬ ((List.replicate 9501 'a').length ≤ 9500) := by
    rw [hlen]
    norm_num
  have hne : List.replicate 9501 'a' ≠ [] := by
    intro he
    rw [he] at hlen
    simp at hlen
  constructor
  · rw [split_text_into_chunks, if_neg hbig, hfrag,
      pack_fragments_singleton _ _ hbig hne]
  · exact hbig

/-! ## Audiobook stage: the chunk round-trip (C3)

What concatenating the chunks actually reproduces.  The split step loses the
space of every `"! "`, `"? "`, `". "` occurrence (the `replace` calls turn it
into `'|'` and `split('|')` drops it), and drops any literal `'|'` of the
input.
-/

/-- The matching step of `pyReplace2`. -/
theorem pyReplace2_cons_match (a b : Char) (r : List Char) (rest : List Char) :
    pyReplace2 a b r (a :: b :: rest) = r ++ pyReplace2 a b r rest := by
  simp [pyReplace2]

/-- `pySplitChar` never returns an empty list of segments. -/
theorem pySplitChar_ne_nil (sep : Char) : ∀ s : List Char, pySplitChar sep s ≠ []
  | [] => by simp [pySplitChar]
  | c :: rest => by
    rw [pySplitChar]
    by_cases hc : c = sep
    · rw [if_pos hc]
      exact List.cons_ne_nil _ _
    · rw [if_neg hc]
      rcases hrec : pySplitChar sep rest with _ | ⟨h, t⟩
      · exact List.cons_ne_nil _ _
      · exact List.cons_ne_nil _ _

/-- Concatenating the segments of `pySplitChar` yields the input minus every
occurrence of the separator. -/
theorem flatten_pySplitChar (sep : Char) :
    ∀ s : List Char, (pySplitChar sep s).flatten = s.filter (fun c => c != sep)
  | [] => rfl
  | c :: rest => by
    by_cases hc : c = sep
    · rw [pySplitChar, if_pos hc, List.flatten_cons, List.nil_append,
        flatten_pySplitChar sep rest, List.filter_cons]
      have hss : (c != sep) = false := by simpa using hc
      rw [hss, if_neg Bool.false_ne_true]
    · have hcb : (c != sep) = true := by simpa using hc
      rw [pySplitChar, if_neg hc]
      rcases hrec : pySplitChar sep rest with _ | ⟨h, t⟩
      · exact absurd hrec (pySplitChar_ne_nil sep rest)
      · have hflat := flatten_pySplitChar sep rest
        rw [hrec, List.flatten_cons] at hflat
        show ((c :: h) :: t).flatten = List.filter (fun x => x != sep) (c :: rest)
        rw [List.flatten_cons, List.cons_append, hflat, List.filter_cons, hcb,
          if_pos rfl]

/-- The packing loop loses no characters: the flattened chunks plus the
current chunk are the flattened input fragments. -/
theorem pack_loop_flatten (m : ℕ) :
    ∀ (l : List (List Char)) (acc : List (List Char)) (cc : List Char),
      (l.foldl (pack_step m) (acc, cc)).1.flatten ++ (l.foldl (pack_step m) (acc, cc)).2 =
        acc.flatten ++ cc ++ l.flatten
  | [], acc, cc => by simp
  | s :: rest, acc, cc => by
    rw [List.foldl_cons, pack_step]
    by_cases hfit : cc.length + s.length ≤ m
    · rw [if_pos hfit, pack_loop_flatten m rest acc (cc ++ s)]
      simp [List.append_assoc]
    · rw [if_neg hfit]
      by_cases hnil : cc = []
      · rw [if_pos hnil, pack_loop_flatten m rest acc s, hnil]
        simp
      · rw [if_neg hnil, pack_loop_flatten m rest (acc ++ [cc]) s]
        simp [List.append_assoc]

/-- Flattening the packed chunks yields the flattened fragments. -/
theorem pack_fragments_flatten (l : List (List Char)) (m : ℕ) :
    (pack_fragments l m).flatten = l.flatten := by
  have h := pack_loop_flatten m l [] []
  simp only [List.flatten_nil, List.nil_append, List.append_nil] at h
  simp only [pack_fragments]
  by_cases hnil : (l.foldl (pack_step m) ([], [])).2 = []
  · rw [if_pos hnil]
    rw [hnil, List.append_nil] at h
    exact h
  · rw [if_neg hnil, List.flatten_append]
    simpa using h

/-- Replacing a two-character pattern whose replacement starts with the
pattern head preserves the head character of the string. -/
theorem pyReplace2_cons_head (a b : Char) (c : Char) :
    ∀ t : List Char, ∃ u, pyReplace2 a b [a, '|'] (c :: t) = c :: u
  | [] => ⟨[], rfl⟩
  | y :: t => by
    by_cases h : c = a ∧ y = b
    · refine ⟨'|' :: pyReplace2 a b [a, '|'] t, ?_⟩
      simp only [pyReplace2, if_pos h]
      rw [h.1]
      rfl
    · exact ⟨pyReplace2 a b [a, '|'] (y :: t), by simp only [pyReplace2, if_neg h]⟩

/-- Reference reading of the spec's round-trip clause: the input text with the
single space after each sentence-ending `'!'`, `'?'`, `'.'` removed. -/
def dropSentenceBoundarySpaces : List Char → List Char
  | c1 :: c2 :: rest =>
    if (c1 = '!' ∨ c1 = '?' ∨ c1 = '.') ∧ c2 = ' ' then
      c1 :: dropSentenceBoundarySpaces rest
    else c1 :: dropSentenceBoundarySpaces (c2 :: rest)
  | s => s

/-- Keeping a non-marker character through the marker filter. -/
theorem filter_bar_cons_keep (c : Char) (hc : (c != '|') = true) (l : List Char) :
    (c :: l).filter (fun x => x != '|') = c :: l.filter (fun x => x != '|') := by
  rw [List.filter_cons, hc, if_pos rfl]

/-- Dropping a marker character through the marker filter. -/
theorem filter_bar_cons_drop (l : List Char) :
    ('|' :: l).filter (fun x => x != '|') = l.filter (fun x => x != '|') := by
  have h : (('|' : Char) != '|') = false := by simp
  rw [List.filter_cons, h, if_neg Bool.false_ne_true]

/-- On `'|'`-free text, the marking passes followed by dropping the `'|'`
markers remove exactly the boundary spaces. -/
theorem boundary_marked_filter :
    ∀ (n : ℕ) (s : List Char), s.length ≤ n → '|' ∉ s →
      (boundary_marked s).filter (fun c => c != '|') = dropSentenceBoundarySpaces s := by
  intro n
  induction n with
  | zero =>
    intro s hlen _
    have hs : s = [] := List.eq_nil_of_length_eq_zero (Nat.le_zero.mp hlen)
    subst hs
    rfl
  | succ n ih =>
    intro s hlen hbar
    rcases s with _ | ⟨c1, s'⟩
    · rfl
    rcases s' with _ | ⟨c2, rest⟩
    · have hc : (c1 != '|') = true := by
        simp only [bne_iff_ne, ne_eq]
        rintro rfl
        exact hbar (List.mem_cons_self _ _)
      have h1 : boundary_marked [c1] = [c1] := rfl
      have h2 : dropSentenceBoundarySpaces [c1] = [c1] := rfl
      rw [h1, h2, filter_bar_cons_keep c1 hc, List.filter_nil]
    have hc1 : c1 ≠ '|' := by
      rintro rfl
      exact hbar (List.mem_cons_self _ _)
    have hc1b : (c1 != '|') = true := by simpa using hc1
    have hbar2 : '|' ∉ c2 :: rest := fun hm => hbar (List.mem_cons_of_mem _ hm)
    have hbarRest : '|' ∉ rest := fun hm => hbar2 (List.mem_cons_of_mem _ hm)
    have hlen2 : (c2 :: rest).length ≤ n := by
      simp only [List.length_cons] at hlen ⊢
      omega
    have hlenRest : rest.length ≤ n := by
      simp only [List.length_cons] at hlen
      omega
    by_cases hb1 : c1 = '!' ∧ c2 = ' '
    · obtain ⟨rfl, rfl⟩ := hb1
      have e1 : pyReplace2 '!' ' ' ['!', '|'] ('!' :: ' ' :: rest) =
          '!' :: '|' :: pyReplace2 '!' ' ' ['!', '|'] rest := by
        rw [pyReplace2_cons_match]
        rfl
      have e2 : pyReplace2 '?' ' ' ['?', '|']
            ('!' :: '|' :: pyReplace2 '!' ' ' ['!', '|'] rest) =
          '!' :: '|' :: pyReplace2 '?' ' ' ['?', '|']
            (pyReplace2 '!' ' ' ['!', '|'] rest) := by
        rw [pyReplace2_cons_ne '?' ' ' _ '!' (by decide),
          pyReplace2_cons_ne '?' ' ' _ '|' (by decide)]
      have e3 : pyReplace2 '.' ' ' ['.', '|']
            ('!' :: '|' :: pyReplace2 '?' ' ' ['?', '|']
              (pyReplace2 '!' ' ' ['!', '|'] rest)) =
          '!' :: '|' :: pyReplace2 '.' ' ' ['.', '|']
            (pyReplace2 '?' ' ' ['?', '|'] (pyReplace2 '!' ' ' ['!', '|'] rest)) := by
        rw [pyReplace2_cons_ne '.' ' ' _ '!' (by decide),
          pyReplace2_cons_ne '.' ' ' _ '|' (by decide)]
      have hdbs : dropSentenceBoundarySpaces ('!' :: ' ' :: rest) =
          '!' :: dropSentenceBoundarySpaces rest := by
        simp [dropSentenceBoundarySpaces]
      simp only [boundary_marked]
      rw [e1, e2, e3, filter_bar_cons_keep '!' (by decide), filter_bar_cons_drop, hdbs]
      exact congrArg (List.cons '!') (ih rest hlenRest hbarRest)
    · by_cases hb2 : c1 = '?' ∧ c2 = ' '
      · obtain ⟨rfl, rfl⟩ := hb2
        have e1 : pyReplace2 '!' ' ' ['!', '|'] ('?' :: ' ' :: rest) =
            '?' :: ' ' :: pyReplace2 '!' ' ' ['!', '|'] rest := by
          rw [pyReplace2_cons_ne '!' ' ' _ '?' (by decide),
            pyReplace2_cons_ne '!' ' ' _ ' ' (by decide)]
        have e2 : pyReplace2 '?' ' ' ['?', '|']
              ('?' :: ' ' :: pyReplace2 '!' ' ' ['!', '|'] rest) =
            '?' :: '|' :: pyReplace2 '?' ' ' ['?', '|']
              (pyReplace2 '!' ' ' ['!', '|'] rest) := by
          rw [pyReplace2_cons_match]
          rfl
        have e3 : pyReplace2 '.' ' ' ['.', '|']
              ('?' :: '|' :: pyReplace2 '?' ' ' ['?', '|']
                (pyReplace2 '!' ' ' ['!', '|'] rest)) =
            '?' :: '|' :: pyReplace2 '.' ' ' ['.', '|']
              (pyReplace2 '?' ' ' ['?', '|'] (pyReplace2 '!' ' ' ['!', '|'] rest)) := by
          rw [pyReplace2_cons_ne '.' ' ' _ '?' (by decide),
            pyReplace2_cons_ne '.' ' ' _ '|' (by decide)]
        have hdbs : dropSentenceBoundarySpaces ('?' :: ' ' :: rest) =
            '?' :: dropSentenceBoundarySpaces rest := by
          simp [dropSentenceBoundarySpaces]
        simp only [boundary_marked]
        rw [e1, e2, e3, filter_bar_cons_keep '?' (by decide), filter_bar_cons_drop, hdbs]
        exact congrArg (List.cons '?') (ih rest hlenRest hbarRest)
      · by_cases hb3 : c1 = '.' ∧ c2 = ' '
        · obtain ⟨rfl, rfl⟩ := hb3
          have e1 : pyReplace2 '!' ' ' ['!', '|'] ('.' :: ' ' :: rest) =
              '.' :: ' ' :: pyReplace2 '!' ' ' ['!', '|'] rest := by
            rw [pyReplace2_cons_ne '!' ' ' _ '.' (by decide),
              pyReplace2_cons_ne '!' ' ' _ ' ' (by decide)]
          have e2 : pyReplace2 '?' ' ' ['?', '|']
                ('.' :: ' ' :: pyReplace2 '!' ' ' ['!', '|'] rest) =
              '.' :: ' ' :: pyReplace2 '?' ' ' ['?', '|']
                (pyReplace2 '!' ' ' ['!', '|'] rest) := by
            rw [pyReplace2_cons_ne '?' ' ' _ '.' (by decide),
              pyReplace2_cons_ne '?' ' ' _ ' ' (by decide)]
          have e3 : pyReplace2 '.' ' ' ['.', '|']
                ('.' :: ' ' :: pyReplace2 '?' ' ' ['?', '|']
                  (pyReplace2 '!' ' ' ['!', '|'] rest)) =
              '.' :: '|' :: pyReplace2 '.' ' ' ['.', '|']
                (pyReplace2 '?' ' ' ['?', '|'] (pyReplace2 '!' ' ' ['!', '|'] rest)) := by
            rw [pyReplace2_cons_match]
            rfl
          have hdbs : dropSentenceBoundarySpaces ('.' :: ' ' :: rest) =
              '.' :: dropSentenceBoundarySpaces rest := by
            simp [dropSentenceBoundarySpaces]
          simp only [boundary_marked]
          rw [e1, e2, e3, filter_bar_cons_keep '.' (by decide), filter_bar_cons_drop, hdbs]
          exact congrArg (List.cons '.') (ih rest hlenRest hbarRest)
        · have h1 : ¬(c1 = '!' ∧ c2 = ' ') := hb1
          have h2 : ¬(c1 = '?' ∧ c2 = ' ') := hb2
          have h3 : ¬(c1 = '.' ∧ c2 = ' ') := hb3
          have hno : ¬((c1 = '!' ∨ c1 = '?' ∨ c1 = '.') ∧ c2 = ' ') := by
            rintro ⟨ha | ha | ha, hb⟩
            · exact h1 ⟨ha, hb⟩
            · exact h2 ⟨ha, hb⟩
            · exact h3 ⟨ha, hb⟩
          obtain ⟨u1, hu1⟩ := pyReplace2_cons_head '!' ' ' c2 rest
          obtain ⟨u2, hu2⟩ := pyReplace2_cons_head '?' ' ' c2 u1
          have e1 : pyReplace2 '!' ' ' ['!', '|'] (c1 :: c2 :: rest) =
              c1 :: pyReplace2 '!' ' ' ['!', '|'] (c2 :: rest) := by
            simp only [pyReplace2]
            rw [if_neg h1]
          have e2 : pyReplace2 '?' ' ' ['?', '|'] (c1 :: c2 :: u1) =
              c1 :: pyReplace2 '?' ' ' ['?', '|'] (c2 :: u1) := by
            simp only [pyReplace2]
            rw [if_neg h2]
          have e3 : pyReplace2 '.' ' ' ['.', '|'] (c1 :: c2 :: u2) =
              c1 :: pyReplace2 '.' ' ' ['.', '|'] (c2 :: u2) := by
            simp only [pyReplace2]
            rw [if_neg h3]
          have hdbs : dropSentenceBoundarySpaces (c1 :: c2 :: rest) =
              c1 :: dropSentenceBoundarySpaces (c2 :: rest) := by
            simp only [dropSentenceBoundarySpaces]
            rw [if_neg hno]
          simp only [boundary_marked]
          rw [e1, hu1, e2, hu2, e3, ← hu2, ← hu1, filter_bar_cons_keep c1 hc1b, hdbs]
          exact congrArg (List.cons c1) (ih (c2 :: rest) hlen2 hbar2)

/-- C3 (amended): for `'|'`-free input text, re-joining the chunks in order
reproduces the text exactly when no split was needed (`length ≤ max_size`);
otherwise it reproduces the text with the space removed after every
sentence-ending `'!'`, `'?'` or `'.'` — the split step drops those spaces, so
the round-trip is not exact.  (A literal `'|'` in the input would also be
dropped.) -/
theorem c3_roundtrip_amended (text : List Char) (max_size : ℕ)
    (hbar : '|' ∉ text) :
    (split_text_into_chunks text max_size).flatten =
      if text.length ≤ max_size then text else dropSentenceBoundarySpaces text := by
  rw [split_text_into_chunks]
  by_cases hle : text.length ≤ max_size
  · rw [if_pos hle, if_pos hle]
    simp
  · rw [if_neg hle, if_neg hle, pack_fragments_flatten, sentence_fragments,
      flatten_pySplitChar]
    exact boundary_marked_filter text.length text le_rfl hbar

/-- Witness for C3: on a concrete oversized text the re-joined chunks equal
the text with its boundary space dropped. -/
theorem c3_roundtrip_witness :
    (split_text_into_chunks "aa. bb".toList 4).flatten =
      dropSentenceBoundarySpaces "aa. bb".toList := by
  have h := c3_roundtrip_amended "aa. bb".toList 4 (by decide)
  rw [h, if_neg (by decide)]

/-- Counterexample for C3: splitting `"aa. bb"` at limit 4 yields
`["aa.", "bb"]`, whose concatenation `"aa.bb"` is not the original text —
the space after the sentence boundary is lost. -/
theorem c3_roundtrip_counterexample :
    split_text_into_chunks "aa. bb".toList 4 = ["aa.".toList, "bb".toList] ∧
    (split_text_into_chunks "aa. bb".toList 4).flatten = "aa.bb".toList ∧
    "aa.bb".toList ≠ "aa. bb".toList := by
  refine ⟨by decide, by decide, by decide⟩

/-! ## Audiobook stage: duration estimation

`audiobook_generator.estimate_audio_duration` (lines 497–512) and the success
path of `generate_chapter_audio` (lines 279–383).  The TTS call and the S3
upload are oracles: `tts` maps a text chunk to `some f` (the synthesized
audio file, represented by its byte size) or `none` (a raised exception);
`upload` maps the final file to `some key` or `none`.
-/

/-- `audiobook_generator.estimate_audio_duration(text)`:
`int(word_count / 150 * 60)`.  Python `int()` truncates toward zero; the
argument is always nonnegative here, so truncation coincides with `⌊·⌋`. -/
def estimate_audio_duration (text : List Char) : ℤ :=
  ⌊((pyWordCountL text : ℚ) / 150) * 60⌋

/-- The `audio_info` dict built by `generate_chapter_audio` on success. -/
structure AudioInfo where
  chapter_number : ℤ
  chapter_title : String
  s3_key : String
  file_size_bytes : ℕ
  estimated_duration_seconds : ℤ
  voice : String
  confidence : Option ℤ
deriving DecidableEq, Repr

/-- The success payload of `generate_chapter_audio`: the `audio_info` dict
and the top-level `duration` field. -/
structure ChapterAudio where
  audio_info : AudioInfo
  duration : ℤ
deriving DecidableEq, Repr

/-- Sequentially collect oracle results; `none` as soon as one call fails
(the Python loop raises at the first failed TTS call). -/
def collectSome {α : Type} : List (Option α) → Option (List α)
  | [] => some []
  | none :: _ => none
  | some x :: rest => (collectSome rest).map (x :: ·)

/-- The success path of `audiobook_generator.generate_chapter_audio`: chunk
the text, synthesize every chunk, keep only the first chunk's audio (the
`combine_audio_chunks` simplification), upload it, and report the duration
estimated *from the full pre-chunk text*.  Any failure returns `none` (the
`except` branch of the source). -/
def generate_chapter_audio (tts : List Char → Option ℕ) (upload : ℕ → Option String)
    (chapter_number : ℤ) (chapter_title : String) (text : List Char)
    (voice : String) (confidence : Option ℤ) : Option ChapterAudio :=
  let text_chunks := split_text_into_chunks text 9500
  match collectSome (text_chunks.map tts) with
  | none => none
  | some audio_chunks =>
    match audio_chunks.head? with
    | none => none
    | some final_audio_file =>
      match upload final_audio_file with
      | none => none
      | some s3_key =>
        some { audio_info :=
                 { chapter_number := chapter_number
                   chapter_title := chapter_title
                   s3_key := s3_key
                   file_size_bytes := final_audio_file
                   estimated_duration_seconds := estimate_audio_duration text
                   voice := voice
                   confidence := confidence }
               duration := estimate_audio_duration text }

/-- C7 (amended): the duration estimate is `word_count / 150 * 60` *rounded
down* (Python `int()` truncation), not rounded to nearest; and whenever
`generate_chapter_audio` succeeds, both reported duration fields are that
estimate computed on the full pre-chunk text. -/
theorem c7_duration_amended :
    (∀ text : List Char,
      estimate_audio_duration text = ((pyWordCountL text * 60 / 150 : ℕ) : ℤ)) ∧
    (∀ (tts : List Char → Option ℕ) (upload : ℕ → Option String) (chapter_number : ℤ)
      (chapter_title : String) (text : List Char) (voice : String)
      (confidence : Option ℤ) (result : ChapterAudio),
      generate_chapter_audio tts upload chapter_number chapter_title text voice confidence =
        some result →
      result.duration = estimate_audio_duration text ∧
      result.audio_info.estimated_duration_seconds = estimate_audio_duration text) := by
  constructor
  · intro text
    rw [estimate_audio_duration]
    have h1 : ((pyWordCountL text : ℚ) / 150) * 60 =
        (((pyWordCountL text * 60 : ℕ) : ℤ) : ℚ) / ((150 : ℕ) : ℚ) := by
      push_cast
      ring
    rw [h1, Rat.floor_intCast_div_natCast]
    norm_cast
  · intro tts upload chapter_number chapter_title text voice confidence result h
    simp only [generate_chapter_audio] at h
    rcases hc : collectSome ((split_text_into_chunks text 9500).map tts) with _ | audio_chunks
    · simp only [hc] at h
      exact Option.noConfusion h
    · simp only [hc] at h
      rcases hh : audio_chunks.head? with _ | f
      · simp only [hh] at h
        exact Option.noConfusion h
      · simp only [hh] at h
        rcases hu : upload f with _ | key
        · simp only [hu] at h
          exact Option.noConfusion h
        · simp only [hu, Option.some.injEq] at h
          rw [← h]
          exact ⟨rfl, rfl⟩

/-- Witness for C7: a 150-word text is estimated at 60 seconds, and a
successful concrete audio generation reports exactly the full-text
estimate. -/
theorem c7_duration_witness :
    estimate_audio_duration (List.flatten (List.replicate 150 ['a', ' '])) = 60 ∧
    ((generate_chapter_audio (fun _ => some 3) (fun _ => some "k") 1 "c"
        "hi there".toList "v" none).map ChapterAudio.duration) =
      some (estimate_audio_duration "hi there".toList) := by
  constructor
  · rw [c7_duration_amended.1 (List.flatten (List.replicate 150 ['a', ' ']))]
    decide
  · rcases he : generate_chapter_audio (fun _ => some 3) (fun _ => some "k") 1 "c"
        "hi there".toList "v" none with _ | result
    · exact absurd he (by decide)
    · have h := (c7_duration_amended.2 (fun _ => some 3) (fun _ => some "k") 1 "c"
        "hi there".toList "v" none result he).1
      simp [h]

/-- Counterexample for C7: a two-word text is estimated at 0 seconds, while
rounding `2 / 150 * 60 = 0.8` to the nearest integer gives 1. -/
theorem c7_duration_counterexample :
    estimate_audio_duration "a b".toList = 0 ∧
    pyRound ((pyWordCountL "a b".toList : ℚ) / 150 * 60) = 1 := by
  have hw : pyWordCountL "a b".toList = 2 := rfl
  constructor
  · rw [estimate_audio_duration, hw]
    have : ⌊(((2 : ℕ) : ℚ) / 150) * 60⌋ = 0 := by
      rw [Int.floor_eq_iff]
      constructor
      · push_cast
        norm_num
      · push_cast
        norm_num
    rw [this]
  · rw [hw]
    have hf : ⌊(((2 : ℕ) : ℚ) / 150 * 60)⌋ = 0 := by
      rw [Int.floor_eq_iff]
      constructor
      · push_cast
        norm_num
      · push_cast
        norm_num
    rw [pyRound, hf]
    norm_num

end Hackathon
